import Mathlib

/-!
Verification development for the Discussion-Group repository.

The file embeds, as Lean definitions, the parts of the code base that the
checked properties are about:

* the PCM-to-WAV encoder `audioBufferToWav` and the text-to-speech wrapper
  `generateTTS` from `src/services/gemini.ts`;
* the playback controller / playback cache logic of
  `AnnouncementView.handlePlayTTS` (`src/components/AnnouncementView.tsx`)
  and of `ResourceView.handlePlayTTS` / `handleStopTTS`
  (`src/unnamed/part_001`).

Modelling conventions:

* JavaScript numbers that hold audio samples are modelled as rationals `ℚ`.
  Every value that actually flows through the encoder (a `Float32Array`
  entry, sums with `0.5`, products with `32767` / `32768`) is a dyadic
  rational whose double-precision computation is exact, so `ℚ` arithmetic
  is a faithful model of the floating-point source on all inputs drawn
  from a `Float32Array` (`NaN`/infinite entries excluded).
* The JavaScript truncation `|0` (`ToInt32`) is truncation toward zero
  followed by wrap-around into `[-2^31, 2^31)`.
* The `ArrayBuffer` of the encoder is modelled as a zero-initialised byte
  memory `ℕ → ℕ` together with the running write position `pos`, exactly
  as the `DataView` writes do in the source; the produced `Blob` is the
  list of the first `length` bytes of that memory.
* The `while (pos < buffer.length)` loop only ever increments `pos` by one
  per iteration, hence runs exactly `buffer.length - pos₀` iterations; it
  is embedded as the structurally recursive `writeDataGo` on that count.
-/

/-- Truncation toward zero of a rational, the exact integer part produced by
applying the JavaScript `|0` operator to an in-range value. -/
def truncQ (q : ℚ) : ℤ := if 0 ≤ q then ⌊q⌋ else ⌈q⌉

/-- JavaScript `ToInt32` applied to a rational: truncate toward zero, then
wrap into the signed 32-bit range.  This is what `x|0` computes. -/
def toInt32 (q : ℚ) : ℤ := (truncQ q + 2147483648) % 4294967296 - 2147483648

/-- JavaScript `Math.min` on two (non-`NaN`) numbers. -/
def jsMin (a b : ℚ) : ℚ := if a ≤ b then a else b

/-- JavaScript `Math.max` on two (non-`NaN`) numbers. -/
def jsMax (a b : ℚ) : ℚ := if a ≤ b then b else a

/-- Decoded audio buffer (Web Audio `AudioBuffer`): channel count, sample
rate, frame count (`buffer.length`) and per-channel sample data;
`channelData i pos` is `buffer.getChannelData(i)[pos]`. -/
structure AudioBuffer where
  numberOfChannels : ℕ
  sampleRate : ℕ
  length : ℕ
  channelData : ℕ → ℕ → ℚ

/-- Byte memory of the encoder's `ArrayBuffer`: byte index to byte value. -/
def writeByte (mem : ℕ → ℕ) (p : ℕ) (v : ℕ) : ℕ → ℕ :=
  fun j => if j = p then v else mem j

/-- Write a list of bytes at consecutive positions starting at `p`. -/
def writeList (mem : ℕ → ℕ) (p : ℕ) : List ℕ → (ℕ → ℕ)
  | [] => mem
  | v :: vs => writeList (writeByte mem p v) (p + 1) vs

/-- Little-endian byte decomposition of a 16-bit value. -/
def u16Bytes (v : ℕ) : List ℕ := [v % 256, v / 256 % 256]

/-- Little-endian byte decomposition of a 32-bit value. -/
def u32Bytes (v : ℕ) : List ℕ :=
  [v % 256, v / 256 % 256, v / 65536 % 256, v / 16777216 % 256]

/-- State threaded through the encoder's header writes: the byte memory of
the `ArrayBuffer` and the current write position `pos`. -/
abbrev WavState := (ℕ → ℕ) × ℕ

/-- The encoder's local helper `setUint32(data)`: store the value
little-endian at `pos` (a `DataView.setUint32`, which reduces the value
modulo `2^32`) and advance `pos` by 4. -/
def setUint32 (st : WavState) (v : ℤ) : WavState :=
  (writeList st.1 st.2 (u32Bytes ((v % 4294967296).toNat)), st.2 + 4)

/-- The encoder's local helper `setUint16(data)`: store the value
little-endian at `pos` (modulo `2^16`) and advance `pos` by 2. -/
def setUint16 (st : WavState) (v : ℤ) : WavState :=
  (writeList st.1 st.2 (u16Bytes ((v % 65536).toNat)), st.2 + 2)

/-- A `view.setInt16(p, v, true)` at an explicit position: the two low
bytes of `v`, little-endian; `pos` is not touched. -/
def setInt16At (mem : ℕ → ℕ) (p : ℕ) (v : ℤ) : ℕ → ℕ :=
  writeList mem p (u16Bytes ((v % 65536).toNat))

/-- Header phase of `audioBufferToWav`: the thirteen `setUint32`/`setUint16`
calls of the source, starting from the zero-initialised `ArrayBuffer` and
`pos = 0`.  The final `setUint32(length - pos - 44)` reads the live `pos`
variable (which is 40 at that point), exactly as the source does. -/
def writeHeader (buffer : AudioBuffer) : WavState :=
  let numOfChan := buffer.numberOfChannels
  let length := buffer.length * numOfChan * 2 + 44
  let st := setUint32 ((fun _ => 0), 0) 0x46464952
  let st := setUint32 st ((length : ℤ) - 8)
  let st := setUint32 st 0x45564157
  let st := setUint32 st 0x20746d66
  let st := setUint32 st 16
  let st := setUint16 st 1
  let st := setUint16 st (buffer.numberOfChannels : ℤ)
  let st := setUint32 st (buffer.sampleRate : ℤ)
  let st := setUint32 st ((buffer.sampleRate * 2 * numOfChan : ℕ) : ℤ)
  let st := setUint16 st ((numOfChan * 2 : ℕ) : ℤ)
  let st := setUint16 st 16
  let st := setUint32 st 0x61746164
  let st := setUint32 st ((length : ℤ) - (st.2 : ℤ) - 44)
  st

/-- Per-sample quantisation of the encoder, the two lines
`sample = Math.max(-1, Math.min(1, channels[i][pos]))` and
`sample = (0.5 + sample < 0 ? sample * 32768 : sample * 32767)|0`.
Note that by JavaScript operator precedence the condition is
`(0.5 + sample) < 0`, i.e. `sample < -0.5`. -/
def quantize (s : ℚ) : ℤ :=
  let sample := jsMax (-1) (jsMin 1 s)
  toInt32 (if mkRat 1 2 + sample < 0 then sample * 32768 else sample * 32767)

/-- Body of the inner `for (i = 0; i < numOfChan; i++)` loop of the
encoder's data phase, folded over the channel indices: each channel's
sample at frame `pos` is quantised and stored at byte `44 + offset`,
and `offset` advances by 2.  The state component `.2` is `offset`. -/
def writeFrame (buffer : AudioBuffer) (pos : ℕ) (st : WavState) : WavState :=
  (List.range buffer.numberOfChannels).foldl
    (fun st i =>
      (setInt16At st.1 (44 + st.2) (quantize (buffer.channelData i pos)), st.2 + 2))
    st

/-- Iterated body of the encoder's `while (pos < buffer.length)` loop,
structurally recursive on the remaining iteration count
`buffer.length - pos`: each iteration writes one frame and increments
`pos`. -/
def writeDataGo (buffer : AudioBuffer) : ℕ → (ℕ → ℕ) → ℕ → ℕ → (ℕ → ℕ)
  | 0, mem, _, _ => mem
  | k + 1, mem, pos, offset =>
      let st := writeFrame buffer pos (mem, offset)
      writeDataGo buffer k st.1 (pos + 1) st.2

/-- Data phase of `audioBufferToWav`: the `while (pos < buffer.length)`
loop.  Since `pos` increases by exactly one per iteration, the loop runs
`buffer.length - pos` times (zero times when `pos ≥ buffer.length`). -/
def writeData (buffer : AudioBuffer) (mem : ℕ → ℕ) (pos offset : ℕ) : ℕ → ℕ :=
  writeDataGo buffer (buffer.length - pos) mem pos offset

/-- The function `audioBufferToWav` of `src/services/gemini.ts`: the blob's
byte sequence, of size `buffer.length * numOfChan * 2 + 44`.  After the
header phase the live variable `pos` is 44, and the source's data loop
continues with that same `pos` variable as its frame index and with
`offset = 0`. -/
def audioBufferToWav (buffer : AudioBuffer) : List ℕ :=
  let length := buffer.length * buffer.numberOfChannels * 2 + 44
  let st := writeHeader buffer
  let mem := writeData buffer st.1 st.2 0
  (List.range length).map mem

/-- Little-endian decoding of the two bytes at position `p` of an encoder
output (out-of-range reads give 0). -/
def readU16 (out : List ℕ) (p : ℕ) : ℕ :=
  out.getD p 0 + 256 * out.getD (p + 1) 0

/-- Little-endian decoding of the four bytes at position `p` of an encoder
output (out-of-range reads give 0). -/
def readU32 (out : List ℕ) (p : ℕ) : ℕ :=
  out.getD p 0 + 256 * out.getD (p + 1) 0 + 65536 * out.getD (p + 2) 0 +
    16777216 * out.getD (p + 3) 0

/-- Signed 16-bit interpretation of the two bytes at position `p`. -/
def readI16 (out : List ℕ) (p : ℕ) : ℤ :=
  ((readU16 out p : ℤ) + 32768) % 65536 - 32768

/-- The 1-channel, 4-frame, 24 kHz example buffer with samples
`[0.0, 0.5, -0.5, 1.0]` from the round-trip scenario of the spec. -/
def exBuf : AudioBuffer where
  numberOfChannels := 1
  sampleRate := 24000
  length := 4
  channelData := fun _ pos =>
    if pos = 0 then 0
    else if pos = 1 then mkRat 1 2
    else if pos = 2 then mkRat (-1) 2
    else 1

/-- Bytes written by `writeList` never touch positions below the write
start. -/
theorem writeList_preserve (bs : List ℕ) (mem : ℕ → ℕ) (p j : ℕ) (h : j < p) :
    writeList mem p bs j = mem j := by
  induction bs generalizing mem p with
  | nil => rfl
  | cons v vs ih =>
      rw [writeList, ih _ _ (Nat.lt_succ_of_lt h), writeByte]
      exact if_neg (Nat.ne_of_lt h)

/-- The channel loop of a frame only writes at byte positions
`44 + offset` and above, and only increases `offset` (stated over an
arbitrary channel-index list for the induction). -/
theorem writeChannels_preserve (b : AudioBuffer) (pos : ℕ) (l : List ℕ)
    (st : WavState) (j : ℕ) (h : j < 44 + st.2) :
    (l.foldl (fun st i =>
        (setInt16At st.1 (44 + st.2) (quantize (b.channelData i pos)), st.2 + 2)) st).1 j
      = st.1 j ∧
    st.2 ≤ (l.foldl (fun st i =>
        (setInt16At st.1 (44 + st.2) (quantize (b.channelData i pos)), st.2 + 2)) st).2 := by
  induction l generalizing st with
  | nil => exact ⟨rfl, le_refl _⟩
  | cons i is ih =>
      rw [List.foldl_cons]
      have hj : j < 44 + (st.2 + 2) := by omega
      obtain ⟨h1, h2⟩ := ih (setInt16At st.1 (44 + st.2) (quantize (b.channelData i pos)), st.2 + 2) hj
      refine ⟨?_, le_trans (Nat.le_add_right st.2 2) h2⟩
      rw [h1]
      exact writeList_preserve _ _ _ _ h

/-- One frame of the data phase only writes at `44 + offset` and above. -/
theorem writeFrame_preserve (b : AudioBuffer) (pos : ℕ) (st : WavState)
    (j : ℕ) (h : j < 44 + st.2) :
    (writeFrame b pos st).1 j = st.1 j ∧ st.2 ≤ (writeFrame b pos st).2 :=
  writeChannels_preserve b pos (List.range b.numberOfChannels) st j h

/-- The data-phase loop of the encoder only writes at byte positions
`44 + offset` and above: bytes below `44 + offset` keep their value. -/
theorem writeDataGo_preserve (b : AudioBuffer) (k : ℕ) (mem : ℕ → ℕ)
    (pos off j : ℕ) (h : j < 44 + off) :
    writeDataGo b k mem pos off j = mem j := by
  induction k generalizing mem pos off with
  | zero => rfl
  | succ k ih =>
      simp only [writeDataGo]
      obtain ⟨h1, h2⟩ := writeFrame_preserve b pos (mem, off) j h
      have h2' : off ≤ (writeFrame b pos (mem, off)).2 := h2
      have h1' : (writeFrame b pos (mem, off)).1 j = mem j := h1
      rw [ih _ _ _ (by omega)]
      exact h1'

/-- Reading a byte below position 44 of the encoder output returns the byte
written by the header phase. -/
theorem audioBufferToWav_getD (b : AudioBuffer) (p : ℕ) (hp : p < 44) :
    (audioBufferToWav b).getD p 0 = (writeHeader b).1 p := by
  have hlen : p < b.length * b.numberOfChannels * 2 + 44 := by omega
  have hpos : (writeHeader b).2 = 44 := by
    simp only [writeHeader, setUint32, setUint16]
  rw [audioBufferToWav]
  rw [List.getD_eq_getElem?_getD, List.getElem?_map, List.getElem?_range hlen]
  have hred : (Option.map (writeData b (writeHeader b).1 (writeHeader b).2 0)
      (some p)).getD 0 = writeData b (writeHeader b).1 (writeHeader b).2 0 p := rfl
  rw [hred, writeData, hpos, writeDataGo_preserve b _ _ _ _ p (by omega)]

/-- The clamped sample is at least `-1`. -/
theorem clamp_lower (s : ℚ) : -1 ≤ jsMax (-1) (jsMin 1 s) := by
  rw [jsMax]
  split
  · assumption
  · exact le_refl _

/-- The clamped sample is at most `1`. -/
theorem clamp_upper (s : ℚ) : jsMax (-1) (jsMin 1 s) ≤ 1 := by
  rw [jsMax]
  split
  · rw [jsMin]
    split
    · exact le_refl _
    · next h => exact le_of_lt (lt_of_not_le h)
  · norm_num

/-- Truncation toward zero of a rational bounded by integers `lo ≤ q ≤ hi`
stays within `[min lo 0, max hi 0]`. -/
theorem truncQ_bounds (q : ℚ) (lo hi : ℤ) (hlo : (lo : ℚ) ≤ q) (hhi : q ≤ (hi : ℚ)) :
    min lo 0 ≤ truncQ q ∧ truncQ q ≤ max hi 0 := by
  rw [truncQ]
  split
  · constructor
    · exact le_trans (min_le_right lo 0) (Int.floor_nonneg.2 (by assumption))
    · refine le_trans ?_ (le_max_left hi 0)
      have := Int.floor_le_floor hhi
      simpa using this
  · constructor
    · refine le_trans (min_le_left lo 0) ?_
      have := Int.ceil_le_ceil hlo
      simpa using this
    · refine le_trans (Int.ceil_le.2 (le_of_not_le ?_)) (le_max_right hi 0)
      simpa using ‹¬ 0 ≤ q›

/-- On arguments in `[-32768, 32767]` the `ToInt32` wrap-around is the
identity on the truncated value. -/
theorem toInt32_of_bounded (q : ℚ) (hlo : (-32768 : ℚ) ≤ q) (hhi : q ≤ (32767 : ℚ)) :
    toInt32 q = truncQ q := by
  have h := truncQ_bounds q (-32768) 32767 (by exact_mod_cast hlo) (by exact_mod_cast hhi)
  rw [toInt32]
  omega

/-- Modelled from the words of the quantisation claim: clamp the sample to
`[-1, 1]`, multiply by 32768 if the clamped value is negative and by 32767
if it is non-negative, truncate toward zero. -/
def quantizeClaim (s : ℚ) : ℤ :=
  let c := jsMax (-1) (jsMin 1 s)
  truncQ (if c < 0 then c * 32768 else c * 32767)

/-- Per-sample rule that the source actually implements: clamp to `[-1, 1]`,
multiply by 32768 if the clamped value is below `-1/2` (the parse of
`0.5 + sample < 0`) and by 32767 otherwise, truncate toward zero. -/
def quantizeAmended (s : ℚ) : ℤ :=
  let c := jsMax (-1) (jsMin 1 s)
  truncQ (if c < -(1/2 : ℚ) then c * 32768 else c * 32767)

/-- C1 counterexample: for the sample `-1/4` the encoder's quantiser yields
`-8191` (it multiplies by 32767 because `-1/4 ≥ -1/2`), while the claimed
rule — multiply negative clamped values by 32768 — yields `-8192`. -/
theorem quantize_neg_scale_counterexample :
    quantize (mkRat (-1) 4) = -8191 ∧ quantizeClaim (mkRat (-1) 4) = -8192 ∧
      quantize (mkRat (-1) 4) ≠ quantizeClaim (mkRat (-1) 4) := by
  have h : mkRat (-1) 4 = ((-1 : ℚ)/4) := by rw [Rat.mkRat_eq_div]; norm_num
  have h2 : (mkRat 1 2 : ℚ) = 1/2 := by rw [Rat.mkRat_eq_div]; norm_num
  have e1 : quantize (mkRat (-1) 4) = -8191 := by
    rw [quantize]
    simp only [h, h2, jsMin, jsMax]
    norm_num
    rw [toInt32_of_bounded _ (by norm_num) (by norm_num), truncQ]
    rw [if_neg (by norm_num), Int.ceil_eq_iff]
    norm_num
  have e2 : quantizeClaim (mkRat (-1) 4) = -8192 := by
    rw [quantizeClaim]
    simp only [h, jsMin, jsMax]
    norm_num
    rw [truncQ, if_neg (by norm_num), Int.ceil_eq_iff]
    norm_num
  exact ⟨e1, e2, by rw [e1, e2]; decide⟩

/-- C1 amended: for every sample `s`, the emitted value is the clamped
sample scaled by 32768 when it is below `-1/2` and by 32767 otherwise,
truncated toward zero (the `|0` wrap-around never fires because the scaled
value always lies within the 32-bit range). -/
theorem quantize_threshold_amended (s : ℚ) : quantize s = quantizeAmended s := by
  simp only [quantize, quantizeAmended]
  have h2 : (mkRat 1 2 : ℚ) = 1/2 := by rw [Rat.mkRat_eq_div]; norm_num
  have hlo := clamp_lower s
  have hhi := clamp_upper s
  set c := jsMax (-1) (jsMin 1 s) with hc
  have hcond : (mkRat 1 2 + c < 0) = (c < -(1/2 : ℚ)) := by
    rw [h2]; apply propext; constructor <;> intro h <;> linarith
  simp only [hcond]
  by_cases hq : c < -(1/2 : ℚ)
  · rw [if_pos hq]
    exact toInt32_of_bounded _ (by linarith) (by linarith)
  · rw [if_neg hq]
    push_neg at hq
    exact toInt32_of_bounded _ (by linarith) (by linarith)

/-- C1 amended witness: the rule evaluated at the concrete sample `1/2`. -/
theorem quantize_threshold_amended_witness :
    quantize (mkRat 1 2) = quantizeAmended (mkRat 1 2) :=
  quantize_threshold_amended (mkRat 1 2)

/-- C5: the encoder output consists of exactly `44 + N·C·2` bytes. -/
theorem encoder_output_length (b : AudioBuffer)
    (hC : 1 ≤ b.numberOfChannels) (hR : 0 < b.sampleRate) :
    (audioBufferToWav b).length = 44 + b.length * b.numberOfChannels * 2 := by
  rw [audioBufferToWav, List.length_map, List.length_range]
  omega

/-- C5 witness: the example buffer gives `44 + 4·1·2 = 52` bytes. -/
theorem encoder_output_length_witness :
    (audioBufferToWav exBuf).length = 44 + exBuf.length * exBuf.numberOfChannels * 2 :=
  encoder_output_length exBuf (by decide) (by decide)

/-- Bytes 0 to 3 of the output are ASCII "RIFF". -/
theorem hdr_riff (b : AudioBuffer) :
    (audioBufferToWav b).getD 0 0 = 82 ∧ (audioBufferToWav b).getD 1 0 = 73 ∧
      (audioBufferToWav b).getD 2 0 = 70 ∧ (audioBufferToWav b).getD 3 0 = 70 := by
  refine ⟨?_, ?_, ?_, ?_⟩ <;>
    · rw [audioBufferToWav_getD b _ (by norm_num)]
      simp only [writeHeader, setUint32, setUint16, writeList, writeByte, u32Bytes, u16Bytes,
        Nat.reduceAdd, Nat.reduceEqDiff, reduceIte]
      omega

/-- Bytes 4 to 7 hold the total length minus 8, little-endian. -/
theorem hdr_len8 (b : AudioBuffer)
    (hLen : b.length * b.numberOfChannels * 2 + 36 < 4294967296) :
    readU32 (audioBufferToWav b) 4 = b.length * b.numberOfChannels * 2 + 36 := by
  rw [readU32, audioBufferToWav_getD b 4 (by norm_num), audioBufferToWav_getD b 5 (by norm_num),
    audioBufferToWav_getD b 6 (by norm_num), audioBufferToWav_getD b 7 (by norm_num)]
  simp only [writeHeader, setUint32, setUint16, writeList, writeByte, u32Bytes, u16Bytes,
    Nat.reduceAdd, Nat.reduceEqDiff, reduceIte]
  omega

/-- Bytes 8 to 11 of the output are ASCII "WAVE". -/
theorem hdr_wave (b : AudioBuffer) :
    (audioBufferToWav b).getD 8 0 = 87 ∧ (audioBufferToWav b).getD 9 0 = 65 ∧
      (audioBufferToWav b).getD 10 0 = 86 ∧ (audioBufferToWav b).getD 11 0 = 69 := by
  refine ⟨?_, ?_, ?_, ?_⟩ <;>
    · rw [audioBufferToWav_getD b _ (by norm_num)]
      simp only [writeHeader, setUint32, setUint16, writeList, writeByte, u32Bytes, u16Bytes,
        Nat.reduceAdd, Nat.reduceEqDiff, reduceIte]
      omega

/-- Bytes 12 to 15 of the output are ASCII "fmt " (with trailing space). -/
theorem hdr_fmt (b : AudioBuffer) :
    (audioBufferToWav b).getD 12 0 = 102 ∧ (audioBufferToWav b).getD 13 0 = 109 ∧
      (audioBufferToWav b).getD 14 0 = 116 ∧ (audioBufferToWav b).getD 15 0 = 32 := by
  refine ⟨?_, ?_, ?_, ?_⟩ <;>
    · rw [audioBufferToWav_getD b _ (by norm_num)]
      simp only [writeHeader, setUint32, setUint16, writeList, writeByte, u32Bytes, u16Bytes,
        Nat.reduceAdd, Nat.reduceEqDiff, reduceIte]
      omega

/-- Bytes 16 to 19 hold the "fmt " sub-chunk length 16. -/
theorem hdr_fmtlen (b : AudioBuffer) : readU32 (audioBufferToWav b) 16 = 16 := by
  rw [readU32, audioBufferToWav_getD b 16 (by norm_num), audioBufferToWav_getD b 17 (by norm_num),
    audioBufferToWav_getD b 18 (by norm_num), audioBufferToWav_getD b 19 (by norm_num)]
  simp only [writeHeader, setUint32, setUint16, writeList, writeByte, u32Bytes, u16Bytes,
    Nat.reduceAdd, Nat.reduceEqDiff, reduceIte]
  omega

/-- Bytes 20 and 21 hold the PCM format tag 1. -/
theorem hdr_pcm (b : AudioBuffer) : readU16 (audioBufferToWav b) 20 = 1 := by
  rw [readU16, audioBufferToWav_getD b 20 (by norm_num), audioBufferToWav_getD b 21 (by norm_num)]
  simp only [writeHeader, setUint32, setUint16, writeList, writeByte, u32Bytes, u16Bytes,
    Nat.reduceAdd, Nat.reduceEqDiff, reduceIte]
  omega

/-- Bytes 22 and 23 hold the channel count. -/
theorem hdr_channels (b : AudioBuffer) (hC : b.numberOfChannels < 65536) :
    readU16 (audioBufferToWav b) 22 = b.numberOfChannels := by
  rw [readU16, audioBufferToWav_getD b 22 (by norm_num), audioBufferToWav_getD b 23 (by norm_num)]
  simp only [writeHeader, setUint32, setUint16, writeList, writeByte, u32Bytes, u16Bytes,
    Nat.reduceAdd, Nat.reduceEqDiff, reduceIte]
  omega

/-- Bytes 24 to 27 hold the sample rate. -/
theorem hdr_rate (b : AudioBuffer) (hR : b.sampleRate < 4294967296) :
    readU32 (audioBufferToWav b) 24 = b.sampleRate := by
  rw [readU32, audioBufferToWav_getD b 24 (by norm_num), audioBufferToWav_getD b 25 (by norm_num),
    audioBufferToWav_getD b 26 (by norm_num), audioBufferToWav_getD b 27 (by norm_num)]
  simp only [writeHeader, setUint32, setUint16, writeList, writeByte, u32Bytes, u16Bytes,
    Nat.reduceAdd, Nat.reduceEqDiff, reduceIte]
  omega

/-- Bytes 28 to 31 hold the byte rate `R·2·C`. -/
theorem hdr_byterate (b : AudioBuffer)
    (hBR : b.sampleRate * 2 * b.numberOfChannels < 4294967296) :
    readU32 (audioBufferToWav b) 28 = b.sampleRate * 2 * b.numberOfChannels := by
  rw [readU32, audioBufferToWav_getD b 28 (by norm_num), audioBufferToWav_getD b 29 (by norm_num),
    audioBufferToWav_getD b 30 (by norm_num), audioBufferToWav_getD b 31 (by norm_num)]
  simp only [writeHeader, setUint32, setUint16, writeList, writeByte, u32Bytes, u16Bytes,
    Nat.reduceAdd, Nat.reduceEqDiff, reduceIte]
  omega

/-- Bytes 32 and 33 hold the block alignment `2·C`. -/
theorem hdr_blockalign (b : AudioBuffer) (hC : 2 * b.numberOfChannels < 65536) :
    readU16 (audioBufferToWav b) 32 = 2 * b.numberOfChannels := by
  rw [readU16, audioBufferToWav_getD b 32 (by norm_num), audioBufferToWav_getD b 33 (by norm_num)]
  simp only [writeHeader, setUint32, setUint16, writeList, writeByte, u32Bytes, u16Bytes,
    Nat.reduceAdd, Nat.reduceEqDiff, reduceIte]
  omega

/-- Bytes 34 and 35 hold the bits-per-sample value 16. -/
theorem hdr_bits (b : AudioBuffer) : readU16 (audioBufferToWav b) 34 = 16 := by
  rw [readU16, audioBufferToWav_getD b 34 (by norm_num), audioBufferToWav_getD b 35 (by norm_num)]
  simp only [writeHeader, setUint32, setUint16, writeList, writeByte, u32Bytes, u16Bytes,
    Nat.reduceAdd, Nat.reduceEqDiff, reduceIte]
  omega

/-- C6: the fixed header fields of the encoder output: "RIFF", total length
minus 8, "WAVE", "fmt ", sub-chunk size 16, PCM tag 1, channel count,
sample rate, byte rate `R·2·C`, block align `2·C` and 16 bits per sample,
for every valid buffer whose field values fit their integer widths. -/
theorem wav_header_fields (b : AudioBuffer)
    (hC1 : 1 ≤ b.numberOfChannels) (hR0 : 0 < b.sampleRate)
    (hC : 2 * b.numberOfChannels < 65536)
    (hR : b.sampleRate < 4294967296)
    (hBR : b.sampleRate * 2 * b.numberOfChannels < 4294967296)
    (hLen : b.length * b.numberOfChannels * 2 + 36 < 4294967296) :
    ((audioBufferToWav b).getD 0 0 = 82 ∧ (audioBufferToWav b).getD 1 0 = 73 ∧
      (audioBufferToWav b).getD 2 0 = 70 ∧ (audioBufferToWav b).getD 3 0 = 70) ∧
    readU32 (audioBufferToWav b) 4 = b.length * b.numberOfChannels * 2 + 36 ∧
    ((audioBufferToWav b).getD 8 0 = 87 ∧ (audioBufferToWav b).getD 9 0 = 65 ∧
      (audioBufferToWav b).getD 10 0 = 86 ∧ (audioBufferToWav b).getD 11 0 = 69) ∧
    ((audioBufferToWav b).getD 12 0 = 102 ∧ (audioBufferToWav b).getD 13 0 = 109 ∧
      (audioBufferToWav b).getD 14 0 = 116 ∧ (audioBufferToWav b).getD 15 0 = 32) ∧
    readU32 (audioBufferToWav b) 16 = 16 ∧
    readU16 (audioBufferToWav b) 20 = 1 ∧
    readU16 (audioBufferToWav b) 22 = b.numberOfChannels ∧
    readU32 (audioBufferToWav b) 24 = b.sampleRate ∧
    readU32 (audioBufferToWav b) 28 = b.sampleRate * 2 * b.numberOfChannels ∧
    readU16 (audioBufferToWav b) 32 = 2 * b.numberOfChannels ∧
    readU16 (audioBufferToWav b) 34 = 16 := by
  have hC' : b.numberOfChannels < 65536 := by omega
  refine ⟨⟨?_, ?_, ?_, ?_⟩, ?_, ⟨?_, ?_, ?_, ?_⟩, ⟨?_, ?_, ?_, ?_⟩, ?_, ?_, ?_, ?_, ?_, ?_, ?_⟩
  · exact (hdr_riff b).1
  · exact (hdr_riff b).2.1
  · exact (hdr_riff b).2.2.1
  · exact (hdr_riff b).2.2.2
  · exact hdr_len8 b hLen
  · exact (hdr_wave b).1
  · exact (hdr_wave b).2.1
  · exact (hdr_wave b).2.2.1
  · exact (hdr_wave b).2.2.2
  · exact (hdr_fmt b).1
  · exact (hdr_fmt b).2.1
  · exact (hdr_fmt b).2.2.1
  · exact (hdr_fmt b).2.2.2
  · exact hdr_fmtlen b
  · exact hdr_pcm b
  · exact hdr_channels b hC'
  · exact hdr_rate b hR
  · exact hdr_byterate b hBR
  · exact hdr_blockalign b hC
  · exact hdr_bits b

/-- C6 witness: the header fields at the concrete example buffer, here the
sample-rate field. -/
theorem wav_header_fields_witness : readU32 (audioBufferToWav exBuf) 24 = 24000 :=
  (wav_header_fields exBuf (by decide) (by decide) (by decide) (by decide) (by decide)
    (by decide)).2.2.2.2.2.2.2.1

/-- C2: at the 1-channel, 4-frame example buffer, bytes 36 to 39 are ASCII
"data" but bytes 40 to 43 hold `4294967264 = (N·C·2 − 40) mod 2^32` rather
than the byte length `N·C·2 = 8` of the data that follows: the source
writes `length - pos - 44` at a moment where `pos` is 40, so the stored
value is `length - 84`, not `length - 44`. -/
theorem data_chunk_length_bug :
    ((audioBufferToWav exBuf).getD 36 0 = 100 ∧ (audioBufferToWav exBuf).getD 37 0 = 97 ∧
      (audioBufferToWav exBuf).getD 38 0 = 116 ∧ (audioBufferToWav exBuf).getD 39 0 = 97) ∧
    exBuf.length * exBuf.numberOfChannels * 2 = 8 ∧
    readU32 (audioBufferToWav exBuf) 40 = 4294967264 ∧
    readU32 (audioBufferToWav exBuf) 40 ≠ exBuf.length * exBuf.numberOfChannels * 2 := by
  decide

/-- C3: encoding the 1-channel, 4-frame buffer `[0, 0.5, -0.5, 1]` at 24 kHz
yields 52 bytes, but every sample byte is zero: the data loop
`while (pos < buffer.length)` starts with `pos = 44` (left over from the
header phase) and `44 ≥ 4`, so it never executes.  In particular bytes 46
and 47 decode to int16 0, not the claimed 16383, bytes 48 and 49 to 0, not
-16384, and bytes 50 and 51 to 0, not 32767. -/
theorem roundtrip_silence_bug :
    (audioBufferToWav exBuf).length = 52 ∧
    List.drop 44 (audioBufferToWav exBuf) = [0, 0, 0, 0, 0, 0, 0, 0] ∧
    readI16 (audioBufferToWav exBuf) 44 = 0 ∧
    readI16 (audioBufferToWav exBuf) 46 = 0 ∧ readI16 (audioBufferToWav exBuf) 46 ≠ 16383 ∧
    readI16 (audioBufferToWav exBuf) 48 = 0 ∧ readI16 (audioBufferToWav exBuf) 48 ≠ -16384 ∧
    readI16 (audioBufferToWav exBuf) 50 = 0 ∧ readI16 (audioBufferToWav exBuf) 50 ≠ 32767 := by
  decide

/-- Outcome of one `await generateTTS(...)` call as observed by a playback
handler: either an object URL for the generated audio or an error
message. -/
inductive TTSResult where
  | success (url : String)
  | failure (err : String)

/-- The cache-insertion step `setAudioCache(prev => ({ ...prev, [id]: url }))`
(ResourceView) and `setAudioMap(prev => ({ ...prev, [id]: url }))`
(AnnouncementView): a JavaScript object spread with a computed key, which
inserts the key or replaces its existing value. -/
def cachePut (m : String → Option String) (id url : String) : String → Option String :=
  fun k => if k = id then some url else m k

/-- State of the `AnnouncementView` playback controller: the `playingId`
and `audioMap` React state, plus observables of the model — the set of
`Audio` objects currently playing (by announcement id), the `alert`
messages raised so far, and the number of `generateTTS` calls issued. -/
structure AnnState where
  playingId : Option String
  audioMap : String → Option String
  activeStreams : List String
  alerts : List String
  ttsCalls : ℕ

/-- Initial state of `AnnouncementView`: nothing playing, empty cache. -/
def annInit : AnnState :=
  { playingId := none, audioMap := fun _ => none, activeStreams := [], alerts := [],
    ttsCalls := 0 }

/-- The handler `AnnouncementView.handlePlayTTS(item)`, run to completion
with the `generateTTS` outcome `env`:
if `playingId === item.id` it returns immediately (nothing is stopped);
on a cache hit it starts a new `Audio` without stopping any previous one;
on a miss it sets `playingId`, awaits generation, then either caches the
URL and plays (again without stopping anything) or alerts and resets
`playingId` to null. -/
def annHandlePlayTTS (s : AnnState) (id : String) (env : TTSResult) : AnnState :=
  if s.playingId = some id then s
  else
    match s.audioMap id with
    | some _ =>
        { s with playingId := some id, activeStreams := id :: s.activeStreams }
    | none =>
        match env with
        | .success url =>
            { s with playingId := some id,
                     audioMap := cachePut s.audioMap id url,
                     activeStreams := id :: s.activeStreams,
                     ttsCalls := s.ttsCalls + 1 }
        | .failure err =>
            { s with playingId := none,
                     alerts := s.alerts ++ ["TTS Error: " ++ err],
                     ttsCalls := s.ttsCalls + 1 }

/-- State of the `ResourceView` playback controller: the
`playingResourceId`, `generatingAudioId` and `audioCache` React state, the
`currentAudioRef` mutable ref (identified by the resource id of the Audio
object it holds), and the same observables as `AnnState`. -/
structure ResState where
  playingResourceId : Option String
  generatingAudioId : Option String
  audioCache : String → Option String
  currentAudioRef : Option String
  activeStreams : List String
  alerts : List String
  ttsCalls : ℕ

/-- Initial state of `ResourceView`: nothing playing, empty cache. -/
def resInit : ResState :=
  { playingResourceId := none, generatingAudioId := none, audioCache := fun _ => none,
    currentAudioRef := none, activeStreams := [], alerts := [], ttsCalls := 0 }

/-- The handler `ResourceView.handleStopTTS`: if an audio object is held in
`currentAudioRef`, pause it (its stream stops) and clear the ref; in any
case clear `playingResourceId`. -/
def resHandleStopTTS (s : ResState) : ResState :=
  match s.currentAudioRef with
  | some a =>
      { s with activeStreams := s.activeStreams.erase a, currentAudioRef := none,
               playingResourceId := none }
  | none => { s with playingResourceId := none }

/-- The handler `ResourceView.handlePlayTTS(resource)`, run to completion
with the `generateTTS` outcome `env`: toggle off when the same resource is
already playing; otherwise stop any current audio first, then play from
cache on a hit, or generate, cache and play on success, or alert on
failure. -/
def resHandlePlayTTS (s : ResState) (id : String) (env : TTSResult) : ResState :=
  if s.playingResourceId = some id then resHandleStopTTS s
  else
    let s1 := if s.currentAudioRef ≠ none then resHandleStopTTS s else s
    match s1.audioCache id with
    | some _ =>
        { s1 with currentAudioRef := some id, playingResourceId := some id,
                  activeStreams := id :: s1.activeStreams }
    | none =>
        match env with
        | .success url =>
            { s1 with audioCache := cachePut s1.audioCache id url,
                      generatingAudioId := none,
                      currentAudioRef := some id, playingResourceId := some id,
                      activeStreams := id :: s1.activeStreams,
                      ttsCalls := s1.ttsCalls + 1 }
        | .failure err =>
            { s1 with generatingAudioId := none,
                      alerts := s1.alerts ++ ["TTS Error: " ++ err],
                      ttsCalls := s1.ttsCalls + 1 }

/-- Events observable by the `ResourceView` playback controller: a playback
request (with the generation outcome for the miss path), and the `onended`
and `onerror` callbacks of the audio object `a`; the callbacks fire only
for the stream held in `currentAudioRef` (a superseded stream has been
paused and never ends on its own). -/
inductive ResEvent where
  | request (id : String) (env : TTSResult)
  | ended (a : String)
  | errorEvt (a : String)

/-- One controller step of `ResourceView` for each event. -/
def resStep (s : ResState) : ResEvent → ResState
  | .request id env => resHandlePlayTTS s id env
  | .ended a =>
      if s.currentAudioRef = some a then
        { s with playingResourceId := none, currentAudioRef := none,
                 activeStreams := s.activeStreams.erase a }
      else s
  | .errorEvt a =>
      if s.currentAudioRef = some a then
        { s with playingResourceId := none, currentAudioRef := none,
                 activeStreams := s.activeStreams.erase a,
                 alerts := s.alerts ++ ["Error playing audio."] }
      else s

/-- Single-stream invariant of the `ResourceView` controller: the set of
playing streams is exactly the audio object held in `currentAudioRef`, and
`playingResourceId` tracks that ref. -/
def ResInv (s : ResState) : Prop :=
  s.activeStreams = s.currentAudioRef.toList ∧
    s.playingResourceId = s.currentAudioRef


/-- Stopping resets the controller: no stream left, ref and playing id
cleared, everything else untouched. -/
theorem resHandleStopTTS_resets (s : ResState) (h : ResInv s) :
    (resHandleStopTTS s).activeStreams = [] ∧
    (resHandleStopTTS s).currentAudioRef = none ∧
    (resHandleStopTTS s).playingResourceId = none ∧
    (resHandleStopTTS s).audioCache = s.audioCache ∧
    (resHandleStopTTS s).alerts = s.alerts ∧
    (resHandleStopTTS s).ttsCalls = s.ttsCalls := by
  obtain ⟨h1, h2⟩ := h
  cases hr : s.currentAudioRef with
  | none =>
      rw [hr] at h1
      simp [resHandleStopTTS, hr, h1]
  | some a =>
      rw [hr] at h1
      simp [resHandleStopTTS, hr, h1]

/-- After the conditional `handleStopTTS` at the head of the miss/hit path
of `handlePlayTTS`, no stream is active and the ref is clear, while cache,
alerts and call count are untouched. -/
theorem res_after_stop (s : ResState) (h : ResInv s) :
    (if s.currentAudioRef ≠ none then resHandleStopTTS s else s).activeStreams = [] ∧
    (if s.currentAudioRef ≠ none then resHandleStopTTS s else s).currentAudioRef = none ∧
    (if s.currentAudioRef ≠ none then resHandleStopTTS s else s).playingResourceId = none ∧
    (if s.currentAudioRef ≠ none then resHandleStopTTS s else s).audioCache = s.audioCache ∧
    (if s.currentAudioRef ≠ none then resHandleStopTTS s else s).alerts = s.alerts ∧
    (if s.currentAudioRef ≠ none then resHandleStopTTS s else s).ttsCalls = s.ttsCalls := by
  by_cases hr : s.currentAudioRef = none
  · rw [if_neg (not_not_intro hr)]
    obtain ⟨h1, h2⟩ := h
    rw [hr] at h1 h2
    exact ⟨h1, hr, h2, rfl, rfl, rfl⟩
  · rw [if_pos hr]
    exact resHandleStopTTS_resets s h

/-- Every event of the `ResourceView` controller preserves the
single-stream invariant. -/
theorem resInv_preserved (s : ResState) (e : ResEvent) (h : ResInv s) :
    ResInv (resStep s e) := by
  cases e with
  | request id env =>
      simp only [resStep, resHandlePlayTTS]
      by_cases hp : s.playingResourceId = some id
      · rw [if_pos hp]
        obtain ⟨hs1, hs2, hs3, _, _, _⟩ := resHandleStopTTS_resets s h
        exact ⟨by rw [hs1, hs2]; rfl, by rw [hs3, hs2]⟩
      · rw [if_neg hp]
        obtain ⟨hs1, hs2, hs3, hs4, hs5, hs6⟩ := res_after_stop s h
        cases hc : (if s.currentAudioRef ≠ none then resHandleStopTTS s else s).audioCache id with
        | some u =>
            simp only [hc]
            exact ⟨by rw [hs1]; rfl, rfl⟩
        | none =>
            simp only [hc]
            cases env with
            | success url => exact ⟨by rw [hs1]; rfl, rfl⟩
            | failure err => exact ⟨by rw [hs1, hs2]; rfl, by rw [hs3, hs2]⟩
  | ended a =>
      obtain ⟨h1, h2⟩ := h
      simp only [resStep]
      by_cases hra : s.currentAudioRef = some a
      · rw [if_pos hra]
        refine ⟨?_, rfl⟩
        show s.activeStreams.erase a = Option.toList none
        rw [h1, hra]
        simp
      · rw [if_neg hra]
        exact ⟨h1, h2⟩
  | errorEvt a =>
      obtain ⟨h1, h2⟩ := h
      simp only [resStep]
      by_cases hra : s.currentAudioRef = some a
      · rw [if_pos hra]
        refine ⟨?_, rfl⟩
        show s.activeStreams.erase a = Option.toList none
        rw [h1, hra]
        simp
      · rw [if_neg hra]
        exact ⟨h1, h2⟩

/-- C4 counterexample: on the `AnnouncementView` surface, requesting "b"
while "a" is playing does not stop "a": after the two requests both
streams are active at once. -/
theorem announcement_two_streams_counterexample :
    (annHandlePlayTTS (annHandlePlayTTS annInit "a" (TTSResult.success "u1")) "b"
        (TTSResult.success "u2")).activeStreams = ["b", "a"] ∧
    ¬ (annHandlePlayTTS (annHandlePlayTTS annInit "a" (TTSResult.success "u1")) "b"
        (TTSResult.success "u2")).activeStreams.length ≤ 1 := by
  decide

/-- C4 amended: on the `ResourceView` surface — whose handler does stop the
previous stream before starting a new one — every controller event
preserves the single-stream invariant, so at most one stream is ever
active. -/
theorem resource_single_stream (s : ResState) (e : ResEvent) (h : ResInv s) :
    ResInv (resStep s e) ∧ (resStep s e).activeStreams.length ≤ 1 := by
  have hi := resInv_preserved s e h
  refine ⟨hi, ?_⟩
  rw [hi.1]
  cases (resStep s e).currentAudioRef <;> simp

/-- C4 amended witness: a request on the initial state keeps at most one
stream active. -/
theorem resource_single_stream_witness :
    (resStep resInit (ResEvent.request "a" (TTSResult.success "u"))).activeStreams.length ≤ 1 :=
  (resource_single_stream resInit (ResEvent.request "a" (TTSResult.success "u")) ⟨rfl, rfl⟩).2

/-- C7 counterexample: a second put for the same identifier replaces the
cached value — the claimed first-writer-wins behaviour would have kept
"u1". -/
theorem cachePut_overwrite_counterexample :
    cachePut (cachePut (fun _ => none) "a" "u1") "a" "u2" "a" = some "u2" ∧
    cachePut (cachePut (fun _ => none) "a" "u1") "a" "u2" "a" ≠ some "u1" := by
  decide

/-- C7 amended: the cache put of both handlers is insert-or-replace
(last-writer-wins): after `put(id, url)` the entry for `id` is `url`, and
every other entry is unchanged. -/
theorem cachePut_last_writer_wins (m : String → Option String) (id url : String) :
    cachePut m id url id = some url ∧ ∀ k, k ≠ id → cachePut m id url k = m k :=
  ⟨if_pos rfl, fun _ hk => if_neg hk⟩

/-- C7 amended witness: put on an empty cache at "a", read back at "a" and
at "b". -/
theorem cachePut_last_writer_wins_witness :
    cachePut (fun _ => none) "a" "u" "a" = some "u" ∧
    cachePut (fun _ => none) "a" "u" "b" = none :=
  ⟨(cachePut_last_writer_wins (fun _ => none) "a" "u").1,
   (cachePut_last_writer_wins (fun _ => none) "a" "u").2 "b" (by decide)⟩

/-- C8 counterexample: on the `AnnouncementView` surface, requesting the
identifier that is currently playing does not toggle it off — the handler
returns immediately, the id stays marked as playing and its stream keeps
running. -/
theorem announcement_toggle_counterexample :
    (annHandlePlayTTS (annHandlePlayTTS annInit "a" (TTSResult.success "u")) "a"
        (TTSResult.success "u")).playingId = some "a" ∧
    (annHandlePlayTTS (annHandlePlayTTS annInit "a" (TTSResult.success "u")) "a"
        (TTSResult.success "u")).activeStreams = ["a"] := by
  decide

/-- C8 amended: on the `ResourceView` surface a request for the currently
playing id stops the stream and returns the controller to idle; on the
`AnnouncementView` surface the same request is ignored outright (the state
is returned unchanged, playback continues). -/
theorem toggle_off_amended :
    (∀ (s : ResState) (id : String) (env : TTSResult), ResInv s →
        s.playingResourceId = some id →
        (resHandlePlayTTS s id env).playingResourceId = none ∧
        (resHandlePlayTTS s id env).currentAudioRef = none ∧
        (resHandlePlayTTS s id env).activeStreams = []) ∧
    (∀ (s : AnnState) (id : String) (env : TTSResult), s.playingId = some id →
        annHandlePlayTTS s id env = s) := by
  constructor
  · intro s id env h hp
    simp only [resHandlePlayTTS, if_pos hp]
    obtain ⟨hs1, hs2, hs3, _, _, _⟩ := resHandleStopTTS_resets s h
    exact ⟨hs3, hs2, hs1⟩
  · intro s id env hp
    simp only [annHandlePlayTTS, if_pos hp]

/-- C8 amended witness: toggling off a playing resource on `ResourceView`
and a no-op toggle on `AnnouncementView`, on concrete states. -/
theorem toggle_off_amended_witness :
    (resHandlePlayTTS
        { playingResourceId := some "a", generatingAudioId := none,
          audioCache := fun _ => none, currentAudioRef := some "a",
          activeStreams := ["a"], alerts := [], ttsCalls := 0 }
        "a" (TTSResult.success "u")).playingResourceId = none ∧
    annHandlePlayTTS
        { playingId := some "a", audioMap := fun _ => none,
          activeStreams := ["a"], alerts := [], ttsCalls := 0 }
        "a" (TTSResult.success "u")
      = { playingId := some "a", audioMap := fun _ => none,
          activeStreams := ["a"], alerts := [], ttsCalls := 0 } :=
  ⟨(toggle_off_amended.1 _ "a" (TTSResult.success "u") ⟨rfl, rfl⟩ rfl).1,
   toggle_off_amended.2 _ "a" (TTSResult.success "u") rfl⟩

/-- C9: on both surfaces a failed generation resets the controller to idle,
surfaces the alert `TTS Error: <err>`, creates no cache entry for the
identifier, and issues exactly one generation call (no retry). -/
theorem generation_failure_resets :
    (∀ (s : ResState) (id err : String), ResInv s → s.audioCache id = none →
        s.playingResourceId ≠ some id →
        (resHandlePlayTTS s id (TTSResult.failure err)).generatingAudioId = none ∧
        (resHandlePlayTTS s id (TTSResult.failure err)).playingResourceId = none ∧
        (resHandlePlayTTS s id (TTSResult.failure err)).currentAudioRef = none ∧
        (resHandlePlayTTS s id (TTSResult.failure err)).activeStreams = [] ∧
        (resHandlePlayTTS s id (TTSResult.failure err)).audioCache id = none ∧
        (resHandlePlayTTS s id (TTSResult.failure err)).alerts
          = s.alerts ++ ["TTS Error: " ++ err] ∧
        (resHandlePlayTTS s id (TTSResult.failure err)).ttsCalls = s.ttsCalls + 1) ∧
    (∀ (s : AnnState) (id err : String), s.audioMap id = none → s.playingId ≠ some id →
        (annHandlePlayTTS s id (TTSResult.failure err)).playingId = none ∧
        (annHandlePlayTTS s id (TTSResult.failure err)).audioMap id = none ∧
        (annHandlePlayTTS s id (TTSResult.failure err)).alerts
          = s.alerts ++ ["TTS Error: " ++ err] ∧
        (annHandlePlayTTS s id (TTSResult.failure err)).ttsCalls = s.ttsCalls + 1) := by
  constructor
  · intro s id err h hcache hp
    obtain ⟨hs1, hs2, hs3, hs4, hs5, hs6⟩ := res_after_stop s h
    have hc1 : (if s.currentAudioRef ≠ none then resHandleStopTTS s else s).audioCache id
        = none := by rw [hs4]; exact hcache
    simp only [resHandlePlayTTS, if_neg hp, hc1]
    refine ⟨?_, ?_, ?_, ?_, ?_, ?_, ?_⟩ <;>
      first
      | rfl
      | trivial
      | exact hs3
      | exact hs2
      | exact hs1
      | exact hc1
      | rw [hs5]
      | rw [hs6]
  · intro s id err hcache hp
    simp only [annHandlePlayTTS, if_neg hp, hcache]
    refine ⟨?_, ?_, ?_, ?_⟩ <;>
      first
      | rfl
      | trivial
      | exact hcache

/-- C9 witness: a failed generation for "a" from the initial states of the
two surfaces. -/
theorem generation_failure_resets_witness :
    (resHandlePlayTTS resInit "a" (TTSResult.failure "boom")).generatingAudioId = none ∧
    (annHandlePlayTTS annInit "a" (TTSResult.failure "boom")).playingId = none :=
  ⟨(generation_failure_resets.1 resInit "a" "boom" ⟨rfl, rfl⟩ rfl (by decide)).1,
   (generation_failure_resets.2 annInit "a" "boom" rfl (by decide)).1⟩

/-- Result object of `generateTTS` (interface `TTSResponse` of
`src/services/gemini.ts`): optional `audioUrl` and optional `error`. -/
structure TTSResponse where
  audioUrl : Option String := none
  error : Option String := none

/-- Environment of one `generateTTS` run, abstracting its external
collaborators: the `generateContent` call either throws (with the thrown
error's `message`, the empty string when absent) or returns with or
without inline audio data; the decode/encode pipeline on the returned data
either throws or succeeds; `url` is the object URL that
`URL.createObjectURL` produces for the WAV blob. -/
structure TTSEnv where
  apiResult : Except String (Option String)
  decodeResult : Except String Unit
  url : String

/-- The JavaScript fallback `msg || fallback`: the fallback fires when the
message is absent or empty (both falsy). -/
def messageOr (msg fallback : String) : String := if msg = "" then fallback else msg

/-- The function `generateTTS` of `src/services/gemini.ts`: the whole body
is wrapped in try/catch; a missing `inlineData.data` raises
`Error("No audio data returned")` inside the try block; the catch returns
`{ error: error.message || "Failed to generate speech" }`; the success
path returns `{ audioUrl }`. -/
def generateTTS (env : TTSEnv) : TTSResponse :=
  match env.apiResult with
  | .error msg => { error := some (messageOr msg "Failed to generate speech") }
  | .ok none =>
      { error := some (messageOr "No audio data returned" "Failed to generate speech") }
  | .ok (some _) =>
      match env.decodeResult with
      | .error msg => { error := some (messageOr msg "Failed to generate speech") }
      | .ok _ => { audioUrl := some env.url }

/-- C10: for every environment, `generateTTS` resolves (it is a total
function of its environment) to a response carrying exactly one of
`audioUrl` or `error`, and any error message is non-empty. -/
theorem generateTTS_exactly_one (env : TTSEnv) :
    ((∃ u, (generateTTS env).audioUrl = some u) ∧ (generateTTS env).error = none) ∨
    ((generateTTS env).audioUrl = none ∧
      ∃ m, (generateTTS env).error = some m ∧ m ≠ "") := by
  obtain ⟨api, dec, url⟩ := env
  cases api with
  | error msg =>
      right
      refine ⟨rfl, messageOr msg "Failed to generate speech", rfl, ?_⟩
      rw [messageOr]
      split
      · decide
      · assumption
  | ok data =>
      cases data with
      | none =>
          right
          exact ⟨rfl, "No audio data returned", rfl, by decide⟩
      | some b64 =>
          cases dec with
          | error msg =>
              right
              refine ⟨rfl, messageOr msg "Failed to generate speech", rfl, ?_⟩
              rw [messageOr]
              split
              · decide
              · assumption
          | ok u => exact Or.inl ⟨⟨url, rfl⟩, rfl⟩
